import Mathlib

/-!
Verification of the Pub/Sub tool layer
(`src/google/adk/tools/pubsub/{client,message_tool,metadata_tool}.py`).

The Python functions are shallowly embedded: every tool operation becomes a
total Lean function over an explicit environment `Env` that supplies the
outcomes of the vendor-SDK calls (client construction, publish, pull,
acknowledge, and the metadata requests).  Python dictionaries, lists and
strings are embedded as the `PyVal` union; a raised Python exception is
embedded as a `PyExc` value carried through `Except`.

Two pieces of the repository are referenced by the sources but are not under
`src/` and are therefore modelled from the spec where noted: the `config`
module (only `PubSubToolConfig.project_id` is used) and the `version` module
(only the version string interpolated into `USER_AGENT`).

Modelling conventions, stated once:
  * Python string literals in the sources wrap interpolated names in single
    quotes (e.g. the error prefixes) and `repr(ex)` quotes the exception
    message; those quote characters are elided in the embedded strings, which
    otherwise reproduce the source text verbatim.
  * `repr(ex)` is modelled as the exception type name followed by the
    message in parentheses, mirroring CPython's `Exception(...)` rendering.
-/

/-- A Python runtime value, as far as the tool layer produces them:
`None`, booleans, integers, strings, lists and string-keyed dicts. -/
inductive PyVal where
  | none : PyVal
  | bool : Bool → PyVal
  | int : Int → PyVal
  | str : String → PyVal
  | list : List PyVal → PyVal
  | dict : List (String × PyVal) → PyVal

/-- Dictionary lookup: `d[k]` as an `Option`, `none` on non-dicts. -/
def PyVal.get? : PyVal → String → Option PyVal
  | .dict kvs, k => kvs.lookup k
  | _, _ => Option.none

/-- Whether a value is a Python mapping (a `dict`). -/
def PyVal.isDict : PyVal → Bool
  | .dict _ => true
  | _ => false

/-- Whether a value is a Python string. -/
def PyVal.isStr : PyVal → Bool
  | .str _ => true
  | _ => false

/-- Whether a value is a Python list whose elements are all strings. -/
def PyVal.isStrList : PyVal → Bool
  | .list items => items.all PyVal.isStr
  | _ => false

/-- A raised Python exception: its type name and its message (`str(ex)`). -/
structure PyExc where
  excType : String
  msg : String

/-- `repr(ex)`: the type name applied to the message (quotes elided, see
the module header). -/
def pyRepr (ex : PyExc) : String :=
  ex.excType ++ "(" ++ ex.msg ++ ")"

/-- The uniform failure mapping produced by every `except` arm of the tool
layer. -/
def errorEnvelope (details : String) : PyVal :=
  .dict [("status", .str "ERROR"), ("error_details", .str details)]

/-- The `error_details` entry of a result, when it is a string. -/
def errorDetails (v : PyVal) : Option String :=
  match v.get? "error_details" with
  | some (.str s) => some s
  | _ => Option.none

/- ### UTF-8 encoding and decoding over byte lists

`bytes.decode("utf-8")` and `str.encode("utf-8")` are modelled over
`List Nat` (each byte `< 256`).  The decoder is strict, exactly like
CPython's: it rejects continuation-byte errors, overlong forms, surrogate
code points and code points above `0x10FFFF`.  It is written with explicit
fuel (the byte count) so that it is structurally recursive and reduces by
`rfl`; each step consumes at least one byte, so the fuel never runs out on
the initial call. -/

/-- Is `b` a UTF-8 continuation byte (`0x80–0xBF`)? -/
def isCont (b : Nat) : Bool :=
  0x80 ≤ b && b ≤ 0xBF

/-- Fuel-indexed strict UTF-8 decoder; `none` is a `UnicodeDecodeError`. -/
def utf8DecodeFuel : Nat → List Nat → Option (List Char)
  | _, [] => some []
  | 0, _ :: _ => Option.none
  | fuel + 1, b :: rest =>
    if b ≤ 0x7F then
      match utf8DecodeFuel fuel rest with
      | some cs => some (Char.ofNat b :: cs)
      | Option.none => Option.none
    else if b ≤ 0xC1 then Option.none
    else if b ≤ 0xDF then
      match rest with
      | b1 :: rest1 =>
        if isCont b1 then
          match utf8DecodeFuel fuel rest1 with
          | some cs => some (Char.ofNat ((b - 0xC0) * 64 + (b1 - 0x80)) :: cs)
          | Option.none => Option.none
        else Option.none
      | [] => Option.none
    else if b ≤ 0xEF then
      match rest with
      | b1 :: b2 :: rest2 =>
        if (if b = 0xE0 then 0xA0 ≤ b1 && b1 ≤ 0xBF
            else if b = 0xED then 0x80 ≤ b1 && b1 ≤ 0x9F
            else isCont b1) && isCont b2 then
          match utf8DecodeFuel fuel rest2 with
          | some cs =>
              some (Char.ofNat
                ((b - 0xE0) * 4096 + (b1 - 0x80) * 64 + (b2 - 0x80)) :: cs)
          | Option.none => Option.none
        else Option.none
      | _ => Option.none
    else if b ≤ 0xF4 then
      match rest with
      | b1 :: b2 :: b3 :: rest3 =>
        if (if b = 0xF0 then 0x90 ≤ b1 && b1 ≤ 0xBF
            else if b = 0xF4 then 0x80 ≤ b1 && b1 ≤ 0x8F
            else isCont b1) && isCont b2 && isCont b3 then
          match utf8DecodeFuel fuel rest3 with
          | some cs =>
              some (Char.ofNat
                ((b - 0xF0) * 262144 + (b1 - 0x80) * 4096
                  + (b2 - 0x80) * 64 + (b3 - 0x80)) :: cs)
          | Option.none => Option.none
        else Option.none
      | _ => Option.none
    else Option.none

/-- `bytes.decode("utf-8")`: `some` of the decoded text, or `none` when the
bytes are not valid UTF-8. -/
def utf8Decode (bs : List Nat) : Option String :=
  (utf8DecodeFuel bs.length bs).map List.asString

/-- UTF-8 encoding of a single code point. -/
def utf8EncodeChar (c : Nat) : List Nat :=
  if c ≤ 0x7F then [c]
  else if c ≤ 0x7FF then [0xC0 + c / 64, 0x80 + c % 64]
  else if c ≤ 0xFFFF then
    [0xE0 + c / 4096, 0x80 + c / 64 % 64, 0x80 + c % 64]
  else
    [0xF0 + c / 262144, 0x80 + c / 4096 % 64, 0x80 + c / 64 % 64,
      0x80 + c % 64]

/-- `str.encode("utf-8")` as a byte list. -/
def utf8Encode (s : String) : List Nat :=
  (s.data.map (fun c => utf8EncodeChar c.toNat)).flatten

example : utf8Decode [104, 105] = some "hi" := rfl
example : utf8Decode [0xFF] = Option.none := rfl
example : utf8Decode [0xC3, 0xA9] = some "é" := rfl
example : utf8Encode "hé" = [104, 0xC3, 0xA9] := rfl

/- ### The configuration and version modules (not under src/) -/

/-- Modelled from the spec: `message_tool.py` and `metadata_tool.py` import
`PubSubToolConfig` from the repository's `config` module, which is not under
`src/`; per the spec (§3) it is an immutable value carrying at minimum a
project identifier, and the tools only ever read `settings.project_id`. -/
structure PubSubToolConfig where
  project_id : String

/-- Modelled from the spec: `client.py` interpolates `version.__version__`
from the repository's `version` module, which is not under `src/`; the
version string is therefore a parameter.  The format string itself is from
`client.py` line 27. -/
def USER_AGENT (version : String) : String :=
  "adk-pubsub-tool google-adk/" ++ version

/- ### client.py -/

/-- The `user_agent` argument of the client factories:
`Optional[Union[str, List[str]]]`. -/
inductive UserAgentArg where
  | absent : UserAgentArg
  | str : String → UserAgentArg
  | list : List String → UserAgentArg

/-- The `user_agents` list built by both factories (`client.py` lines 45-50
and 77-82): start from `[USER_AGENT]`; under `if user_agent:` (false for
`None`, `""` and `[]`), append a string argument whole, or extend with the
truthy (non-empty) elements of a list argument. -/
def userAgentsList (version : String) (user_agent : UserAgentArg) :
    List String :=
  match user_agent with
  | .absent => [USER_AGENT version]
  | .str s => if s = "" then [USER_AGENT version] else [USER_AGENT version] ++ [s]
  | .list l =>
    if l = [] then [USER_AGENT version]
    else [USER_AGENT version] ++ l.filter (fun ua => ua != "")

/-- `ClientInfo(user_agent=" ".join(user_agents))`. -/
structure ClientInfo where
  user_agent : String

/-- The publisher client handle; only the identification it was built with
is observable in this layer (credentials are opaque). -/
structure PublisherClient where
  client_info : ClientInfo

/-- The subscriber client handle. -/
structure SubscriberClient where
  client_info : ClientInfo

/-- `client.get_publisher_client` (`client.py` lines 30-59). -/
def get_publisher_client (version : String) (user_agent : UserAgentArg) :
    PublisherClient :=
  ⟨⟨String.intercalate " " (userAgentsList version user_agent)⟩⟩

/-- `client.get_subscriber_client` (`client.py` lines 62-91); its body is a
verbatim duplicate of `get_publisher_client` up to the vendor class used. -/
def get_subscriber_client (version : String) (user_agent : UserAgentArg) :
    SubscriberClient :=
  ⟨⟨String.intercalate " " (userAgentsList version user_agent)⟩⟩

/-- The keyword-only parameter names of `client.get_publisher_client`
(`client.py` lines 30-34): `credentials` and `user_agent` only. -/
def getPublisherClientParamNames : List String :=
  ["credentials", "user_agent"]

/-- The attribute names the `client` module defines (`client.py` in full:
the constant and the two factory functions — there is no
`get_schema_client`). -/
def clientModuleAttrs : List String :=
  ["USER_AGENT", "get_publisher_client", "get_subscriber_client"]

/-- Python attribute resolution on the `client` module: `client.<name>`
raises `AttributeError` when the module does not define `name`. -/
def clientModuleLookup (name : String) : Except PyExc Unit :=
  if clientModuleAttrs.contains name then .ok ()
  else .error ⟨"AttributeError",
    "module google.adk.tools.pubsub.client has no attribute " ++ name⟩

/- ### Service-side data (the vendor SDK response objects) -/

/-- `pubsub_v1.types.PublisherOptions`; `enable_message_ordering` defaults
to `False`. -/
structure PublisherOptions where
  enable_message_ordering : Bool

/-- The keyword request `publisher_client.publish(...)` would receive:
topic, payload bytes, ordering key and the attribute keywords
(`message_tool.py` lines 63-68). -/
structure PublishRequest where
  topic : String
  data : List Nat
  ordering_key : String
  attributes : List (String × String)

/-- A received Pub/Sub message body; `publish_time` is modelled as the
string its `rfc3339()` method returns. -/
structure PubsubMessage where
  data : List Nat
  message_id : String
  attributes : List (String × String)
  publish_time : String

/-- One element of `response.received_messages`. -/
structure ReceivedMessage where
  ack_id : String
  message : PubsubMessage

/-- One acknowledge request issued to the service: the subscription and the
ack-id batch. -/
structure AckCall where
  subscription : String
  ack_ids : List String

/-- A topic response object; the nested `schema_settings` and
`message_storage_policy` objects are modelled by their `str()` forms, with
`none` standing for a falsy (absent) nested object. -/
structure Topic where
  name : String
  labels : List (String × String)
  kms_key_name : String
  schema_settings : Option String
  message_storage_policy : Option String

/-- A subscription response object, nested objects modelled as for
`Topic`. -/
structure Subscription where
  name : String
  topic : String
  push_config : Option String
  ack_deadline_seconds : Int
  retain_acked_messages : Bool
  message_retention_duration : Option String
  labels : List (String × String)
  enable_message_ordering : Bool
  expiration_policy : Option String
  filter : String
  dead_letter_policy : Option String
  retry_policy : Option String
  detached : Bool

/-- A schema response object; the `type_` enum and the
`revision_create_time` timestamp are modelled by their `str()` forms. -/
structure Schema where
  name : String
  type_ : String
  definition : String
  revision_id : String
  revision_create_time : String

/-- The environment of one tool invocation: the version string baked into
`USER_AGENT`, the outcome of constructing each vendor client (`some ex`
when the constructor raises), and the outcome of each vendor service call.
Each field is the oracle for exactly one SDK method used by the tools. -/
structure Env where
  version : String
  publisherCtorExc : Option PyExc
  subscriberCtorExc : Option PyExc
  publishResult : PublishRequest → Except PyExc String
  pullResult : String → Nat → Except PyExc (List ReceivedMessage)
  ackResult : AckCall → Except PyExc Unit
  listTopicsResult : String → Except PyExc (List Topic)
  getTopicResult : String → Except PyExc Topic
  listSubscriptionsResult : String → Except PyExc (List Subscription)
  getSubscriptionResult : String → Except PyExc Subscription
  listSchemasResult : String → Except PyExc (List Schema)
  getSchemaResult : String → Except PyExc Schema
  listSchemaRevisionsResult : String → Except PyExc (List Schema)

/-- A call `client.get_publisher_client(**kwargs)` with the given keyword
names: Python raises `TypeError` if any keyword is not a parameter of the
callee; otherwise the factory body runs (and the vendor constructor may
itself raise, `Env.publisherCtorExc`). -/
def callGetPublisherClient (env : Env) (kwargs : List String)
    (user_agent : UserAgentArg) : Except PyExc PublisherClient :=
  if kwargs.all (fun k => getPublisherClientParamNames.contains k) then
    match env.publisherCtorExc with
    | some ex => .error ex
    | Option.none => .ok (get_publisher_client env.version user_agent)
  else
    .error ⟨"TypeError",
      "get_publisher_client() got an unexpected keyword argument publisher_options"⟩

/-- A call `client.get_subscriber_client(credentials=..., user_agent=...)`;
every call site passes exactly the accepted keywords, so only the vendor
constructor outcome matters. -/
def callGetSubscriberClient (env : Env) (user_agent : UserAgentArg) :
    Except PyExc SubscriberClient :=
  match env.subscriberCtorExc with
  | some ex => .error ex
  | Option.none => .ok (get_subscriber_client env.version user_agent)

/- ### message_tool.py -/

/-- The keyword names `publish_message` passes to
`client.get_publisher_client` (`message_tool.py` lines 56-60): note the
third keyword, `publisher_options`, which `get_publisher_client` does not
declare. -/
def publishMessageFactoryKwargs : List String :=
  ["credentials", "user_agent", "publisher_options"]

/-- `message_tool.py` lines 50-55: an ordering-enabled `PublisherOptions`
when `if ordering_key:` is truthy (a non-`None`, non-empty string), the
default options otherwise. -/
def publishPublisherOptions (ordering_key : Option String) :
    PublisherOptions :=
  match ordering_key with
  | some s => if s = "" then ⟨false⟩ else ⟨true⟩
  | Option.none => ⟨false⟩

/-- `message_tool.py` lines 62-68: the keyword request handed to
`publisher_client.publish` — UTF-8 payload, `ordering_key or ""` (so `None`
is coerced to the empty string), and the attributes splatted as keywords. -/
def publishRequest (topic_name message : String)
    (attributes : List (String × String)) (ordering_key : Option String) :
    PublishRequest :=
  { topic := topic_name
    data := utf8Encode message
    ordering_key := match ordering_key with
      | some s => s
      | Option.none => ""
    attributes := attributes }

/-- The `try` block of `publish_message` (`message_tool.py` lines 49-70),
also returning the list of requests that actually reached the vendor
`publish` method.  The first step, the `client.get_publisher_client` call,
passes the keyword `publisher_options`, which the factory's signature
(`client.py` lines 30-34) does not accept, so it raises `TypeError` before
`publish` can be called. -/
def tryPublish (env : Env) (topic_name message : String)
    (settings : PubSubToolConfig) (attributes : List (String × String))
    (ordering_key : Option String) :
    Except PyExc String × List PublishRequest :=
  let publisher_options := publishPublisherOptions ordering_key
  match callGetPublisherClient env publishMessageFactoryKwargs
      (.list [settings.project_id, "publish_message"]) with
  | .error ex => (.error ex, [])
  | .ok _publisher_client =>
    let _ := publisher_options
    let req := publishRequest topic_name message attributes ordering_key
    match env.publishResult req with
    | .error ex => (.error ex, [req])
    | .ok message_id => (.ok message_id, [req])

/-- `message_tool.publish_message` (`message_tool.py` lines 24-77).  The
first component is the returned dict; the second records every request that
reached the vendor `publish` call. -/
def publish_message (env : Env) (topic_name message : String)
    (settings : PubSubToolConfig)
    (attributes : Option (List (String × String)))
    (ordering_key : Option String) : PyVal × List PublishRequest :=
  let attrs := match attributes with
    | some a => a
    | Option.none => []
  match tryPublish env topic_name message settings attrs ordering_key with
  | (.ok message_id, log) => (.dict [("message_id", .str message_id)], log)
  | (.error ex, log) =>
    (errorEnvelope
      ("Failed to publish message to topic " ++ topic_name ++ ": "
        ++ pyRepr ex), log)

/-- The NameError raised by the fallback arm of the pull loop
(`message_tool.py` line 120): the arm evaluates `base64.b64encode`, but the
module never imports `base64` (its imports are lines 15-21), so the name is
unbound.  The inner handler catches only `UnicodeDecodeError`, so this
escapes to the outer `except Exception`. -/
def nameErrorBase64 : PyExc :=
  ⟨"NameError", "name base64 is not defined"⟩

/-- One iteration of the pull loop body (`message_tool.py` lines 114-131):
decode the payload as UTF-8; on decode failure the base64 fallback raises
`NameError` (see `nameErrorBase64`).  On success, the flat message dict. -/
def processReceivedMessage (rm : ReceivedMessage) : Except PyExc PyVal :=
  match utf8Decode rm.message.data with
  | some message_data =>
    .ok (.dict
      [("message_id", .str rm.message.message_id),
       ("data", .str message_data),
       ("attributes", .dict (rm.message.attributes.map
          (fun kv => (kv.1, PyVal.str kv.2)))),
       ("publish_time", .str rm.message.publish_time),
       ("ack_id", .str rm.ack_id)])
  | Option.none => .error nameErrorBase64

/-- The whole pull loop: the `messages` and `ack_ids` accumulators in
delivery order, aborting at the first raising iteration. -/
def processReceivedMessages :
    List ReceivedMessage → Except PyExc (List PyVal × List String)
  | [] => .ok ([], [])
  | rm :: rest => do
    let entry ← processReceivedMessage rm
    let (ms, ids) ← processReceivedMessages rest
    pure (entry :: ms, rm.ack_id :: ids)

/-- `message_tool.pull_messages` (`message_tool.py` lines 80-147).  The
first component is the returned dict; the second records every acknowledge
request issued to the service during the call. -/
def pull_messages (env : Env) (subscription_name : String)
    (settings : PubSubToolConfig) (max_messages : Nat) (auto_ack : Bool) :
    PyVal × List AckCall :=
  match callGetSubscriberClient env
      (.list [settings.project_id, "pull_messages"]) with
  | .error ex =>
    (errorEnvelope
      ("Failed to pull messages from subscription " ++ subscription_name
        ++ ": " ++ pyRepr ex), [])
  | .ok _subscriber_client =>
    match env.pullResult subscription_name max_messages with
    | .error ex =>
      (errorEnvelope
        ("Failed to pull messages from subscription " ++ subscription_name
          ++ ": " ++ pyRepr ex), [])
    | .ok received_messages =>
      match processReceivedMessages received_messages with
      | .error ex =>
        (errorEnvelope
          ("Failed to pull messages from subscription " ++ subscription_name
            ++ ": " ++ pyRepr ex), [])
      | .ok (messages, ack_ids) =>
        if auto_ack && !ack_ids.isEmpty then
          match env.ackResult ⟨subscription_name, ack_ids⟩ with
          | .error ex =>
            (errorEnvelope
              ("Failed to pull messages from subscription "
                ++ subscription_name ++ ": " ++ pyRepr ex),
             [⟨subscription_name, ack_ids⟩])
          | .ok _ =>
            (.dict [("messages", .list messages)],
             [⟨subscription_name, ack_ids⟩])
        else
          (.dict [("messages", .list messages)], [])

/-- `message_tool.acknowledge_messages` (`message_tool.py` lines 150-187),
with the acknowledge requests it issued as second component. -/
def acknowledge_messages (env : Env) (subscription_name : String)
    (ack_ids : List String) (settings : PubSubToolConfig) :
    PyVal × List AckCall :=
  match callGetSubscriberClient env
      (.list [settings.project_id, "acknowledge_messages"]) with
  | .error ex =>
    (errorEnvelope
      ("Failed to acknowledge messages on subscription "
        ++ subscription_name ++ ": " ++ pyRepr ex), [])
  | .ok _subscriber_client =>
    match env.ackResult ⟨subscription_name, ack_ids⟩ with
    | .error ex =>
      (errorEnvelope
        ("Failed to acknowledge messages on subscription "
          ++ subscription_name ++ ": " ++ pyRepr ex),
       [⟨subscription_name, ack_ids⟩])
    | .ok _ =>
      (.dict [("status", .str "SUCCESS")], [⟨subscription_name, ack_ids⟩])

/- ### metadata_tool.py -/

/-- `str(x) if x else None` on a modelled nested object. -/
def optStr (o : Option String) : PyVal :=
  match o with
  | some s => .str s
  | Option.none => .none

/-- The keyword names the metadata operations pass to the publisher or
subscriber factory (e.g. `metadata_tool.py` lines 37-40): exactly the
accepted ones, so unlike `publish_message` no `TypeError` arises. -/
def metadataFactoryKwargs : List String :=
  ["credentials", "user_agent"]

/-- `metadata_tool.list_topics` (`metadata_tool.py` lines 23-53).  Note the
success value is the bare list of names, not a dict. -/
def list_topics (env : Env) (project_id : String)
    (settings : PubSubToolConfig) : PyVal :=
  match callGetPublisherClient env metadataFactoryKwargs
      (.list [settings.project_id, "list_topics"]) with
  | .error ex => errorEnvelope ex.msg
  | .ok _publisher_client =>
    match env.listTopicsResult ("projects/" ++ project_id) with
    | .error ex => errorEnvelope ex.msg
    | .ok topics => .list (topics.map (fun t => PyVal.str t.name))

/-- `metadata_tool.get_topic` (`metadata_tool.py` lines 56-95). -/
def get_topic (env : Env) (topic_name : String)
    (settings : PubSubToolConfig) : PyVal :=
  match callGetPublisherClient env metadataFactoryKwargs
      (.list [settings.project_id, "get_topic"]) with
  | .error ex => errorEnvelope ex.msg
  | .ok _publisher_client =>
    match env.getTopicResult topic_name with
    | .error ex => errorEnvelope ex.msg
    | .ok topic =>
      .dict
        [("name", .str topic.name),
         ("labels", .dict (topic.labels.map
            (fun kv => (kv.1, PyVal.str kv.2)))),
         ("kms_key_name", .str topic.kms_key_name),
         ("schema_settings", optStr topic.schema_settings),
         ("message_storage_policy", optStr topic.message_storage_policy)]

/-- `metadata_tool.list_subscriptions` (`metadata_tool.py` lines 98-128);
the success value is again a bare list of names. -/
def list_subscriptions (env : Env) (project_id : String)
    (settings : PubSubToolConfig) : PyVal :=
  match callGetSubscriberClient env
      (.list [settings.project_id, "list_subscriptions"]) with
  | .error ex => errorEnvelope ex.msg
  | .ok _subscriber_client =>
    match env.listSubscriptionsResult ("projects/" ++ project_id) with
    | .error ex => errorEnvelope ex.msg
    | .ok subs => .list (subs.map (fun s => PyVal.str s.name))

/-- `metadata_tool.get_subscription` (`metadata_tool.py` lines 131-192). -/
def get_subscription (env : Env) (subscription_name : String)
    (settings : PubSubToolConfig) : PyVal :=
  match callGetSubscriberClient env
      (.list [settings.project_id, "get_subscription"]) with
  | .error ex => errorEnvelope ex.msg
  | .ok _subscriber_client =>
    match env.getSubscriptionResult subscription_name with
    | .error ex => errorEnvelope ex.msg
    | .ok s =>
      .dict
        [("name", .str s.name),
         ("topic", .str s.topic),
         ("push_config", optStr s.push_config),
         ("ack_deadline_seconds", .int s.ack_deadline_seconds),
         ("retain_acked_messages", .bool s.retain_acked_messages),
         ("message_retention_duration", optStr s.message_retention_duration),
         ("labels", .dict (s.labels.map (fun kv => (kv.1, PyVal.str kv.2)))),
         ("enable_message_ordering", .bool s.enable_message_ordering),
         ("expiration_policy", optStr s.expiration_policy),
         ("filter", .str s.filter),
         ("dead_letter_policy", optStr s.dead_letter_policy),
         ("retry_policy", optStr s.retry_policy),
         ("detached", .bool s.detached)]

/-- `metadata_tool.list_schemas` (`metadata_tool.py` lines 195-223).  The
body first evaluates `client.get_schema_client`, an attribute the client
module does not define (see `clientModuleAttrs`), so `AttributeError` is
raised and caught before the service can be consulted. -/
def list_schemas (env : Env) (project_id : String)
    (_settings : PubSubToolConfig) : PyVal :=
  match clientModuleLookup "get_schema_client" with
  | .error ex => errorEnvelope ex.msg
  | .ok _ =>
    match env.listSchemasResult ("projects/" ++ project_id) with
    | .error ex => errorEnvelope ex.msg
    | .ok schemas => .list (schemas.map (fun s => PyVal.str s.name))

/-- The flat mapping `get_schema` and `get_schema_revision` build from a
schema response (`metadata_tool.py` lines 248-254 and 323-329). -/
def schemaDict (s : Schema) : PyVal :=
  .dict
    [("name", .str s.name),
     ("type", .str s.type_),
     ("definition", .str s.definition),
     ("revision_id", .str s.revision_id),
     ("revision_create_time", .str s.revision_create_time)]

/-- `metadata_tool.get_schema` (`metadata_tool.py` lines 226-259); fails on
the same missing `client.get_schema_client` attribute. -/
def get_schema (env : Env) (schema_name : String)
    (_settings : PubSubToolConfig) : PyVal :=
  match clientModuleLookup "get_schema_client" with
  | .error ex => errorEnvelope ex.msg
  | .ok _ =>
    match env.getSchemaResult schema_name with
    | .error ex => errorEnvelope ex.msg
    | .ok schema => schemaDict schema

/-- `metadata_tool.list_schema_revisions` (`metadata_tool.py` lines
262-293); fails on the same missing attribute. -/
def list_schema_revisions (env : Env) (schema_name : String)
    (_settings : PubSubToolConfig) : PyVal :=
  match clientModuleLookup "get_schema_client" with
  | .error ex => errorEnvelope ex.msg
  | .ok _ =>
    match env.listSchemaRevisionsResult schema_name with
    | .error ex => errorEnvelope ex.msg
    | .ok revs => .list (revs.map (fun s => PyVal.str s.revision_id))

/-- `metadata_tool.get_schema_revision` (`metadata_tool.py` lines 296-334);
the request name is `schema_name@revision_id`; fails on the same missing
attribute. -/
def get_schema_revision (env : Env) (schema_name revision_id : String)
    (_settings : PubSubToolConfig) : PyVal :=
  match clientModuleLookup "get_schema_client" with
  | .error ex => errorEnvelope ex.msg
  | .ok _ =>
    match env.getSchemaResult (schema_name ++ "@" ++ revision_id) with
    | .error ex => errorEnvelope ex.msg
    | .ok schema => schemaDict schema

/- ### Concrete environments for evaluation -/

/-- A topic response, as in the unit tests. -/
def topicT : Topic :=
  ⟨"projects/p/topics/t", [("key", "value")], "key_name", some "schema_settings",
    some "storage_policy"⟩

/-- A subscription response, as in the unit tests. -/
def subS : Subscription :=
  ⟨"projects/p/subscriptions/s", "projects/p/topics/t", some "push_config", 10,
    true, some "duration", [("key", "value")], true, some "expiration",
    "filter", some "dead_letter", some "retry", false⟩

/-- A schema response, as in the unit tests. -/
def schemaA : Schema :=
  ⟨"projects/p/schemas/schema1", "AVRO", "definition", "revision_id", "time"⟩

/-- A received message whose payload `[111, 107]` is the valid UTF-8 text
`"ok"`. -/
def rmOk : ReceivedMessage :=
  ⟨"ack-1", ⟨[111, 107], "m1", [("k", "v")], "2025-01-01T00:00:00Z"⟩⟩

/-- A received message whose payload `[0xFF]` is not valid UTF-8. -/
def rmBad : ReceivedMessage :=
  ⟨"ack-2", ⟨[0xFF], "m2", [], "2025-01-01T00:00:01Z"⟩⟩

/-- A benign environment: constructors succeed and every service call
returns a fixed successful response (the mocked send reports
`"message_id"`, exactly as in the repository's unit tests). -/
def okEnv : Env where
  version := "1.0.0"
  publisherCtorExc := Option.none
  subscriberCtorExc := Option.none
  publishResult := fun _ => .ok "message_id"
  pullResult := fun _ _ => .ok []
  ackResult := fun _ => .ok ()
  listTopicsResult := fun _ => .ok [topicT]
  getTopicResult := fun _ => .ok topicT
  listSubscriptionsResult := fun _ => .ok [subS]
  getSubscriptionResult := fun _ => .ok subS
  listSchemasResult := fun _ => .ok [schemaA]
  getSchemaResult := fun _ => .ok schemaA
  listSchemaRevisionsResult := fun _ => .ok [schemaA]

/-- The environment in which every vendor constructor and service call
raises `ex`. -/
def raisingEnv (ex : PyExc) : Env where
  version := "1.0.0"
  publisherCtorExc := some ex
  subscriberCtorExc := some ex
  publishResult := fun _ => .error ex
  pullResult := fun _ _ => .error ex
  ackResult := fun _ => .error ex
  listTopicsResult := fun _ => .error ex
  getTopicResult := fun _ => .error ex
  listSubscriptionsResult := fun _ => .error ex
  getSubscriptionResult := fun _ => .error ex
  listSchemasResult := fun _ => .error ex
  getSchemaResult := fun _ => .error ex
  listSchemaRevisionsResult := fun _ => .error ex

/-- A benign environment whose pull delivers one valid-UTF-8 message and
then one binary (non-UTF-8) message. -/
def envMixedPayloads : Env :=
  { okEnv with pullResult := fun _ _ => .ok [rmOk, rmBad] }

/-- A benign environment whose pull delivers a single binary (non-UTF-8)
message. -/
def envBinaryPayload : Env :=
  { okEnv with pullResult := fun _ _ => .ok [rmBad] }

/-- A concrete exception with a non-empty description. -/
def exBoom : PyExc := ⟨"Exception", "boom"⟩

/-- The environment in which every vendor constructor succeeds but every
service call raises `ex`. -/
def envServiceRaises (ex : PyExc) : Env :=
  { raisingEnv ex with
      publisherCtorExc := Option.none
      subscriberCtorExc := Option.none }

/-- A benign environment whose pull delivers one valid message but whose
acknowledge call raises. -/
def envAckRaises : Env :=
  { okEnv with
      pullResult := fun _ _ => .ok [rmOk]
      ackResult := fun _ => .error exBoom }

/-- The flat dict the pull loop builds for `rmOk`. -/
def rmOkEntry : PyVal :=
  .dict
    [("message_id", .str "m1"), ("data", .str "ok"),
     ("attributes", .dict [("k", .str "v")]),
     ("publish_time", .str "2025-01-01T00:00:00Z"),
     ("ack_id", .str "ack-1")]

/- ### Helper lemmas -/

/-- A string with a non-empty left component is non-empty. -/
theorem append_ne_empty_left (a b : String) (h : a.length ≠ 0) :
    a ++ b ≠ "" := by
  intro hab
  have hlen := congrArg String.length hab
  rw [String.length_append] at hlen
  have h0 : ("" : String).length = 0 := rfl
  rw [h0] at hlen
  omega

/-- Mapping `PyVal.str` over a list always yields a list of strings. -/
theorem all_isStr_map {α : Type} (l : List α) (f : α → String) :
    (l.map (fun x => PyVal.str (f x))).all PyVal.isStr = true := by
  induction l with
  | nil => rfl
  | cons x xs ih => simp [PyVal.isStr, ih]

/-- The description of the `AttributeError` every schema operation dies on
(see `clientModuleLookup`). -/
def schemaClientMissingMsg : String :=
  "module google.adk.tools.pubsub.client has no attribute get_schema_client"

/-- Spec-side definition (spec §4.1): the caller-supplied user-agent
fragments that must follow the fixed identifier, with empty fragments
skipped.  Compared against the code's `userAgentsList` in the C8
theorem. -/
def specKeptFragments : UserAgentArg → List String
  | .absent => []
  | .str s => if s = "" then [] else [s]
  | .list l => l.filter (fun ua => ua != "")

/-- Any string of the shape `a ++ b ++ c ++ d` with a non-empty leftmost
component is non-empty. -/
theorem prefixed_ne_empty (a b c d : String) (h : a.length ≠ 0) :
    a ++ b ++ c ++ d ≠ "" := by
  intro hab
  have hlen := congrArg String.length hab
  rw [String.length_append, String.length_append, String.length_append]
    at hlen
  have h0 : ("" : String).length = 0 := rfl
  rw [h0] at hlen
  omega

/-- `publish_message` always returns a dict (in fact always the error
envelope, since the factory call raises `TypeError`). -/
theorem isDict_publish_message (env : Env) (topic msg : String)
    (cfg : PubSubToolConfig) (att : Option (List (String × String)))
    (okey : Option String) :
    (publish_message env topic msg cfg att okey).fst.isDict = true := rfl

/-- `pull_messages` always returns a dict. -/
theorem isDict_pull_messages (env : Env) (sub : String)
    (cfg : PubSubToolConfig) (mm : Nat) (aa : Bool) :
    (pull_messages env sub cfg mm aa).fst.isDict = true := by
  unfold pull_messages callGetSubscriberClient
  repeat' split
  all_goals rfl

/-- `acknowledge_messages` always returns a dict. -/
theorem isDict_acknowledge_messages (env : Env) (sub : String)
    (ids : List String) (cfg : PubSubToolConfig) :
    (acknowledge_messages env sub ids cfg).fst.isDict = true := by
  unfold acknowledge_messages callGetSubscriberClient
  repeat' split
  all_goals rfl

/-- `list_topics` returns either the error dict or a bare list of name
strings. -/
theorem shape_list_topics (env : Env) (proj : String)
    (cfg : PubSubToolConfig) :
    (list_topics env proj cfg).isDict = true
    ∨ (list_topics env proj cfg).isStrList = true := by
  unfold list_topics callGetPublisherClient
  repeat' split
  all_goals first
    | (left; rfl)
    | (right; simp only [PyVal.isStrList]; exact all_isStr_map _ _)

/-- `get_topic` always returns a dict. -/
theorem isDict_get_topic (env : Env) (topic : String)
    (cfg : PubSubToolConfig) :
    (get_topic env topic cfg).isDict = true := by
  unfold get_topic callGetPublisherClient
  repeat' split
  all_goals rfl

/-- `list_subscriptions` returns either the error dict or a bare list of
name strings. -/
theorem shape_list_subscriptions (env : Env) (proj : String)
    (cfg : PubSubToolConfig) :
    (list_subscriptions env proj cfg).isDict = true
    ∨ (list_subscriptions env proj cfg).isStrList = true := by
  unfold list_subscriptions callGetSubscriberClient
  repeat' split
  all_goals first
    | (left; rfl)
    | (right; simp only [PyVal.isStrList]; exact all_isStr_map _ _)

/-- `get_subscription` always returns a dict. -/
theorem isDict_get_subscription (env : Env) (sub : String)
    (cfg : PubSubToolConfig) :
    (get_subscription env sub cfg).isDict = true := by
  unfold get_subscription callGetSubscriberClient
  repeat' split
  all_goals rfl

/-- `list_schemas` returns either the error dict or a bare list of name
strings (on the present code, always the former). -/
theorem shape_list_schemas (env : Env) (proj : String)
    (cfg : PubSubToolConfig) :
    (list_schemas env proj cfg).isDict = true
    ∨ (list_schemas env proj cfg).isStrList = true := by
  left; rfl

/-- `get_schema` always returns a dict. -/
theorem isDict_get_schema (env : Env) (sch : String)
    (cfg : PubSubToolConfig) :
    (get_schema env sch cfg).isDict = true := rfl

/-- `list_schema_revisions` returns either the error dict or a bare list of
revision-id strings (on the present code, always the former). -/
theorem shape_list_schema_revisions (env : Env) (sch : String)
    (cfg : PubSubToolConfig) :
    (list_schema_revisions env sch cfg).isDict = true
    ∨ (list_schema_revisions env sch cfg).isStrList = true := by
  left; rfl

/-- `get_schema_revision` always returns a dict. -/
theorem isDict_get_schema_revision (env : Env) (sch rev : String)
    (cfg : PubSubToolConfig) :
    (get_schema_revision env sch rev cfg).isDict = true := rfl

/- ### Claim theorems -/

/-- C1 (code bug): the claim's concrete scenario — publish "Hello World" to
projects/p/topics/t with no attributes and no ordering key, in an
environment whose send acknowledges with id "message_id" — does not return
a mapping containing "message_id".  `publish_message` passes the keyword
`publisher_options` to `client.get_publisher_client`, whose signature
accepts only `credentials` and `user_agent`, so the call raises `TypeError`
and the tool returns the ERROR envelope instead. -/
theorem c1_publish_hello_world_cannot_succeed :
    (publish_message okEnv "projects/p/topics/t" "Hello World" ⟨"p"⟩
        Option.none Option.none).fst.get? "message_id" = Option.none
    ∧ (publish_message okEnv "projects/p/topics/t" "Hello World" ⟨"p"⟩
        Option.none Option.none).fst.get? "status"
        = some (PyVal.str "ERROR") :=
  ⟨rfl, rfl⟩

/-- C2 (code bug): with the non-empty ordering key "key1" an
ordering-enabled `PublisherOptions` is indeed constructed, but no request
ever reaches the vendor publish call (the request log is empty), because
the factory call raises `TypeError` on the `publisher_options` keyword —
so no forwarded request carries the ordering key. -/
theorem c2_ordering_key_never_forwarded :
    publishPublisherOptions (some "key1") = ⟨true⟩
    ∧ (publish_message okEnv "projects/p/topics/t" "Hello World" ⟨"p"⟩
        Option.none (some "key1")).snd = []
    ∧ (publish_message okEnv "projects/p/topics/t" "Hello World" ⟨"p"⟩
        Option.none (some "key1")).fst.get? "status"
        = some (PyVal.str "ERROR") :=
  ⟨rfl, rfl, rfl⟩

/-- C3 (code bug): pulling a single message whose payload `[0xFF]` is not
valid UTF-8 does not produce a base64 "data" field: the fallback arm
references the unimported name `base64`, the resulting `NameError` escapes
to the outer handler, and the whole call returns the ERROR envelope with no
"messages" key at all. -/
theorem c3_binary_payload_pull_errors :
    (pull_messages envBinaryPayload "projects/p/subscriptions/s" ⟨"p"⟩ 1
        false).fst.get? "messages" = Option.none
    ∧ (pull_messages envBinaryPayload "projects/p/subscriptions/s" ⟨"p"⟩ 1
        false).fst.get? "status" = some (PyVal.str "ERROR")
    ∧ errorDetails (pull_messages envBinaryPayload
        "projects/p/subscriptions/s" ⟨"p"⟩ 1 false).fst
        = some ("Failed to pull messages from subscription "
            ++ "projects/p/subscriptions/s" ++ ": " ++ pyRepr nameErrorBase64) :=
  ⟨rfl, rfl, rfl⟩

/-- C4 (code bug): a pull with `auto_ack = true` that pulls one message
(with the non-UTF-8 payload `[0xFF]`) issues no acknowledge call at all —
the ack log is empty — because the `NameError` from the missing
`base64` binding aborts the loop before the auto-acknowledge step. -/
theorem c4_auto_ack_skipped_on_binary_payload :
    (pull_messages envBinaryPayload "projects/p/subscriptions/s" ⟨"p"⟩ 1
        true).snd = []
    ∧ (pull_messages envBinaryPayload "projects/p/subscriptions/s" ⟨"p"⟩ 1
        true).fst.get? "status" = some (PyVal.str "ERROR") :=
  ⟨rfl, rfl⟩

/-- C5 (counterexample): when the underlying list-topics call raises an
exception whose description is the empty string, `list_topics` returns the
ERROR envelope whose `error_details` is the empty string — refuting the
claim that `error_details` is non-empty for every operation (the metadata
operations store the bare `str(ex)`). -/
theorem c5_empty_error_details :
    (list_topics (raisingEnv ⟨"Exception", ""⟩) "p" ⟨"p"⟩).get? "status"
        = some (PyVal.str "ERROR")
    ∧ errorDetails (list_topics (raisingEnv ⟨"Exception", ""⟩) "p" ⟨"p"⟩)
        = some "" :=
  ⟨rfl, rfl⟩

/-- With the metadata keyword set (exactly the accepted parameter names),
the publisher-factory call reduces to the vendor constructor outcome. -/
theorem callGetPublisherClient_meta (env : Env) (ua : UserAgentArg) :
    callGetPublisherClient env metadataFactoryKwargs ua
      = (match env.publisherCtorExc with
         | some ex => Except.error ex
         | Option.none => Except.ok (get_publisher_client env.version ua)) :=
  rfl

/-- C5 (amended): for every environment, whenever an operation's client
construction raises `ex`, or construction succeeds and its underlying
service call raises `ex`, the operation returns the uniform ERROR envelope
and no exception propagates.  For `pull_messages` and
`acknowledge_messages` the `error_details` string is a fixed context prefix
followed by `repr(ex)` and is therefore non-empty (the auto-acknowledge
sub-call raising inside `pull_messages` yields the same envelope); for the
four working metadata operations it is exactly `str(ex)`, which is empty
when the description is empty; `publish_message` always fails with its own
`TypeError` envelope before any underlying call is reached, and the four
schema operations always fail with the missing-`get_schema_client`
`AttributeError` envelope. -/
theorem c5_amended_error_envelopes (env : Env) (ex : PyExc)
    (topic msg sub proj sch rev : String) (cfg : PubSubToolConfig)
    (ids : List String) (mm : Nat) (aa : Bool)
    (att : Option (List (String × String))) (okey : Option String) :
    ((env.subscriberCtorExc = some ex
        ∨ env.subscriberCtorExc = Option.none
          ∧ env.pullResult sub mm = .error ex) →
      (pull_messages env sub cfg mm aa).fst
          = errorEnvelope ("Failed to pull messages from subscription "
              ++ sub ++ ": " ++ pyRepr ex)
        ∧ "Failed to pull messages from subscription " ++ sub ++ ": "
            ++ pyRepr ex ≠ "")
    ∧ (∀ received msgs aids,
        env.subscriberCtorExc = Option.none →
        env.pullResult sub mm = .ok received →
        processReceivedMessages received = .ok (msgs, aids) →
        (aa && !aids.isEmpty) = true →
        env.ackResult ⟨sub, aids⟩ = .error ex →
        (pull_messages env sub cfg mm aa).fst
          = errorEnvelope ("Failed to pull messages from subscription "
              ++ sub ++ ": " ++ pyRepr ex))
    ∧ ((env.subscriberCtorExc = some ex
        ∨ env.subscriberCtorExc = Option.none
          ∧ env.ackResult ⟨sub, ids⟩ = .error ex) →
      (acknowledge_messages env sub ids cfg).fst
          = errorEnvelope ("Failed to acknowledge messages on subscription "
              ++ sub ++ ": " ++ pyRepr ex)
        ∧ "Failed to acknowledge messages on subscription " ++ sub ++ ": "
            ++ pyRepr ex ≠ "")
    ∧ ((publish_message env topic msg cfg att okey).fst
        = errorEnvelope ("Failed to publish message to topic " ++ topic
            ++ ": " ++ pyRepr ⟨"TypeError",
              "get_publisher_client() got an unexpected keyword argument publisher_options"⟩)
      ∧ "Failed to publish message to topic " ++ topic ++ ": "
          ++ pyRepr (⟨"TypeError",
              "get_publisher_client() got an unexpected keyword argument publisher_options"⟩ : PyExc)
          ≠ "")
    ∧ ((env.publisherCtorExc = some ex
        ∨ env.publisherCtorExc = Option.none
          ∧ env.listTopicsResult ("projects/" ++ proj) = .error ex) →
      list_topics env proj cfg = errorEnvelope ex.msg)
    ∧ ((env.publisherCtorExc = some ex
        ∨ env.publisherCtorExc = Option.none
          ∧ env.getTopicResult topic = .error ex) →
      get_topic env topic cfg = errorEnvelope ex.msg)
    ∧ ((env.subscriberCtorExc = some ex
        ∨ env.subscriberCtorExc = Option.none
          ∧ env.listSubscriptionsResult ("projects/" ++ proj) = .error ex) →
      list_subscriptions env proj cfg = errorEnvelope ex.msg)
    ∧ ((env.subscriberCtorExc = some ex
        ∨ env.subscriberCtorExc = Option.none
          ∧ env.getSubscriptionResult sub = .error ex) →
      get_subscription env sub cfg = errorEnvelope ex.msg)
    ∧ list_schemas env proj cfg = errorEnvelope schemaClientMissingMsg
    ∧ get_schema env sch cfg = errorEnvelope schemaClientMissingMsg
    ∧ list_schema_revisions env sch cfg
        = errorEnvelope schemaClientMissingMsg
    ∧ get_schema_revision env sch rev cfg
        = errorEnvelope schemaClientMissingMsg := by
  refine ⟨?_, ?_, ?_, ⟨rfl, prefixed_ne_empty _ _ _ _ (by decide)⟩,
    ?_, ?_, ?_, ?_, rfl, rfl, rfl, rfl⟩
  · rintro (hc | ⟨hc, hs⟩)
    · unfold pull_messages callGetSubscriberClient
      rw [hc]
      exact ⟨rfl, prefixed_ne_empty _ _ _ _ (by decide)⟩
    · unfold pull_messages callGetSubscriberClient
      rw [hc]
      dsimp only
      rw [hs]
      exact ⟨rfl, prefixed_ne_empty _ _ _ _ (by decide)⟩
  · intro received msgs aids hc hp hpr hguard hack
    unfold pull_messages callGetSubscriberClient
    rw [hc]
    dsimp only
    rw [hp]
    dsimp only
    rw [hpr]
    dsimp only
    rw [hguard, hack]
    rfl
  · rintro (hc | ⟨hc, hs⟩)
    · unfold acknowledge_messages callGetSubscriberClient
      rw [hc]
      exact ⟨rfl, prefixed_ne_empty _ _ _ _ (by decide)⟩
    · unfold acknowledge_messages callGetSubscriberClient
      rw [hc]
      dsimp only
      rw [hs]
      exact ⟨rfl, prefixed_ne_empty _ _ _ _ (by decide)⟩
  · rintro (hc | ⟨hc, hs⟩)
    · unfold list_topics
      rw [callGetPublisherClient_meta, hc]
    · unfold list_topics
      rw [callGetPublisherClient_meta, hc]
      dsimp only
      rw [hs]
  · rintro (hc | ⟨hc, hs⟩)
    · unfold get_topic
      rw [callGetPublisherClient_meta, hc]
    · unfold get_topic
      rw [callGetPublisherClient_meta, hc]
      dsimp only
      rw [hs]
  · rintro (hc | ⟨hc, hs⟩)
    · unfold list_subscriptions callGetSubscriberClient
      rw [hc]
    · unfold list_subscriptions callGetSubscriberClient
      rw [hc]
      dsimp only
      rw [hs]
  · rintro (hc | ⟨hc, hs⟩)
    · unfold get_subscription callGetSubscriberClient
      rw [hc]
    · unfold get_subscription callGetSubscriberClient
      rw [hc]
      dsimp only
      rw [hs]

/-- Witness for C5 (amended): concrete instances exercising both trigger
cases — construction raising (at `raisingEnv`) and construction succeeding
while the service call raises (at `envServiceRaises`) — for the message and
metadata operations, and the auto-acknowledge sub-call raising inside a
pull (at `envAckRaises`). -/
theorem c5_amended_error_envelopes_witness :
    (pull_messages (raisingEnv exBoom) "s" ⟨"p"⟩ 1 false).fst
        = errorEnvelope ("Failed to pull messages from subscription "
            ++ "s" ++ ": " ++ pyRepr exBoom)
    ∧ (pull_messages (envServiceRaises exBoom) "s" ⟨"p"⟩ 1 false).fst
        = errorEnvelope ("Failed to pull messages from subscription "
            ++ "s" ++ ": " ++ pyRepr exBoom)
    ∧ (acknowledge_messages (raisingEnv exBoom) "s" ["a1"] ⟨"p"⟩).fst
        = errorEnvelope ("Failed to acknowledge messages on subscription "
            ++ "s" ++ ": " ++ pyRepr exBoom)
    ∧ (acknowledge_messages (envServiceRaises exBoom) "s" ["a1"] ⟨"p"⟩).fst
        = errorEnvelope ("Failed to acknowledge messages on subscription "
            ++ "s" ++ ": " ++ pyRepr exBoom)
    ∧ list_topics (envServiceRaises exBoom) "p" ⟨"p"⟩
        = errorEnvelope exBoom.msg
    ∧ get_topic (envServiceRaises exBoom) "t" ⟨"p"⟩
        = errorEnvelope exBoom.msg
    ∧ list_subscriptions (envServiceRaises exBoom) "p" ⟨"p"⟩
        = errorEnvelope exBoom.msg
    ∧ get_subscription (envServiceRaises exBoom) "s" ⟨"p"⟩
        = errorEnvelope exBoom.msg
    ∧ (pull_messages envAckRaises "s" ⟨"p"⟩ 1 true).fst
        = errorEnvelope ("Failed to pull messages from subscription "
            ++ "s" ++ ": " ++ pyRepr exBoom) :=
  ⟨((c5_amended_error_envelopes (raisingEnv exBoom) exBoom "t" "m" "s" "p"
      "sc" "r" ⟨"p"⟩ ["a1"] 1 false Option.none Option.none).1
      (Or.inl rfl)).1,
   ((c5_amended_error_envelopes (envServiceRaises exBoom) exBoom "t" "m" "s"
      "p" "sc" "r" ⟨"p"⟩ ["a1"] 1 false Option.none Option.none).1
      (Or.inr ⟨rfl, rfl⟩)).1,
   ((c5_amended_error_envelopes (raisingEnv exBoom) exBoom "t" "m" "s" "p"
      "sc" "r" ⟨"p"⟩ ["a1"] 1 false Option.none Option.none).2.2.1
      (Or.inl rfl)).1,
   ((c5_amended_error_envelopes (envServiceRaises exBoom) exBoom "t" "m" "s"
      "p" "sc" "r" ⟨"p"⟩ ["a1"] 1 false Option.none Option.none).2.2.1
      (Or.inr ⟨rfl, rfl⟩)).1,
   (c5_amended_error_envelopes (envServiceRaises exBoom) exBoom "t" "m" "s"
      "p" "sc" "r" ⟨"p"⟩ ["a1"] 1 false Option.none
      Option.none).2.2.2.2.1 (Or.inr ⟨rfl, rfl⟩),
   (c5_amended_error_envelopes (envServiceRaises exBoom) exBoom "t" "m" "s"
      "p" "sc" "r" ⟨"p"⟩ ["a1"] 1 false Option.none
      Option.none).2.2.2.2.2.1 (Or.inr ⟨rfl, rfl⟩),
   (c5_amended_error_envelopes (envServiceRaises exBoom) exBoom "t" "m" "s"
      "p" "sc" "r" ⟨"p"⟩ ["a1"] 1 false Option.none
      Option.none).2.2.2.2.2.2.1 (Or.inr ⟨rfl, rfl⟩),
   (c5_amended_error_envelopes (envServiceRaises exBoom) exBoom "t" "m" "s"
      "p" "sc" "r" ⟨"p"⟩ ["a1"] 1 false Option.none
      Option.none).2.2.2.2.2.2.2.1 (Or.inr ⟨rfl, rfl⟩),
   (c5_amended_error_envelopes envAckRaises exBoom "t" "m" "s" "p" "sc" "r"
      ⟨"p"⟩ ["a1"] 1 true Option.none Option.none).2.1
      [rmOk] [rmOkEntry] ["ack-1"] rfl rfl rfl rfl rfl⟩

/-- C6 (counterexample): on a successful service call, `list_topics`
returns a bare Python list of name strings — not a mapping — refuting the
claim that every operation returns a mapping. -/
theorem c6_list_topics_returns_bare_list :
    list_topics okEnv "p" ⟨"p"⟩ = PyVal.list [PyVal.str "projects/p/topics/t"]
    ∧ (list_topics okEnv "p" ⟨"p"⟩).isDict = false :=
  ⟨rfl, rfl⟩

/-- C6 (amended): every operation returns either a mapping (the success
dict or the uniform error dict) — except that the four list operations
return a bare list of strings on success and the error mapping only on
failure.  No operation returns any other shape, and none raises. -/
theorem c6_amended_result_shapes (env : Env)
    (topic msg sub proj sch rev : String) (cfg : PubSubToolConfig)
    (ids : List String) (mm : Nat) (aa : Bool)
    (att : Option (List (String × String))) (okey : Option String) :
    (publish_message env topic msg cfg att okey).fst.isDict = true
    ∧ (pull_messages env sub cfg mm aa).fst.isDict = true
    ∧ (acknowledge_messages env sub ids cfg).fst.isDict = true
    ∧ ((list_topics env proj cfg).isDict = true
        ∨ (list_topics env proj cfg).isStrList = true)
    ∧ (get_topic env topic cfg).isDict = true
    ∧ ((list_subscriptions env proj cfg).isDict = true
        ∨ (list_subscriptions env proj cfg).isStrList = true)
    ∧ (get_subscription env sub cfg).isDict = true
    ∧ ((list_schemas env proj cfg).isDict = true
        ∨ (list_schemas env proj cfg).isStrList = true)
    ∧ (get_schema env sch cfg).isDict = true
    ∧ ((list_schema_revisions env sch cfg).isDict = true
        ∨ (list_schema_revisions env sch cfg).isStrList = true)
    ∧ (get_schema_revision env sch rev cfg).isDict = true :=
  ⟨isDict_publish_message env topic msg cfg att okey,
   isDict_pull_messages env sub cfg mm aa,
   isDict_acknowledge_messages env sub ids cfg,
   shape_list_topics env proj cfg,
   isDict_get_topic env topic cfg,
   shape_list_subscriptions env proj cfg,
   isDict_get_subscription env sub cfg,
   shape_list_schemas env proj cfg,
   isDict_get_schema env sch cfg,
   shape_list_schema_revisions env sch cfg,
   isDict_get_schema_revision env sch rev cfg⟩

/-- C7 (code bug): all four schema operations, run against a fully working
schema service, return the ERROR envelope carrying the `AttributeError`
description — the client module defines no `get_schema_client`, so no
schema-registry handle is ever acquired and no request issued. -/
theorem c7_schema_ops_always_error :
    list_schemas okEnv "p" ⟨"p"⟩ = errorEnvelope schemaClientMissingMsg
    ∧ get_schema okEnv "projects/p/schemas/schema1" ⟨"p"⟩
        = errorEnvelope schemaClientMissingMsg
    ∧ list_schema_revisions okEnv "projects/p/schemas/schema1" ⟨"p"⟩
        = errorEnvelope schemaClientMissingMsg
    ∧ get_schema_revision okEnv "projects/p/schemas/schema1" "revision_id"
        ⟨"p"⟩ = errorEnvelope schemaClientMissingMsg :=
  ⟨rfl, rfl, rfl, rfl⟩

/-- C8 (confirmed): for any version string and any caller-supplied
user-agent value (absent, a string, or a list of strings), both factories
produce the identification string that starts with the fixed
`USER_AGENT` identifier and continues with the caller-supplied fragments
joined by single spaces, empty fragments skipped
(`specKeptFragments` is the spec-side reading of that sentence). -/
theorem c8_user_agent_composition (version : String) (ua : UserAgentArg) :
    (get_publisher_client version ua).client_info.user_agent
        = String.intercalate " " (USER_AGENT version :: specKeptFragments ua)
    ∧ (get_subscriber_client version ua).client_info.user_agent
        = String.intercalate " " (USER_AGENT version :: specKeptFragments ua)
    := by
  have h : userAgentsList version ua
      = USER_AGENT version :: specKeptFragments ua := by
    cases ua with
    | absent => rfl
    | str s =>
      by_cases hs : s = "" <;>
        simp [userAgentsList, specKeptFragments, hs]
    | list l =>
      by_cases hl : l = [] <;>
        simp [userAgentsList, specKeptFragments, hl]
  exact ⟨congrArg (String.intercalate " ") h,
    congrArg (String.intercalate " ") h⟩

/-- C9 (confirmed): whenever the subscriber client is constructed, the pull
succeeds, and processing the received messages fails part-way (as the
missing-`base64` `NameError` does on any non-UTF-8 payload), the whole call
returns only the uniform error envelope: no partial "messages" list and no
acknowledge call. -/
theorem c9_pull_fails_atomically (env : Env) (sub : String)
    (cfg : PubSubToolConfig) (mm : Nat) (aa : Bool)
    (received : List ReceivedMessage) (ex : PyExc)
    (hctor : env.subscriberCtorExc = Option.none)
    (hpull : env.pullResult sub mm = .ok received)
    (hproc : processReceivedMessages received = .error ex) :
    (pull_messages env sub cfg mm aa).fst
        = errorEnvelope ("Failed to pull messages from subscription " ++ sub
            ++ ": " ++ pyRepr ex)
    ∧ (pull_messages env sub cfg mm aa).fst.get? "messages" = Option.none
    ∧ (pull_messages env sub cfg mm aa).snd = [] := by
  unfold pull_messages callGetSubscriberClient
  rw [hctor, hpull]
  dsimp only
  rw [hproc]
  exact ⟨rfl, rfl, rfl⟩

/-- Witness for C9: a concrete pull that delivers a valid "ok" message and
then a binary one; the call returns only the error envelope even though the
first message had already been processed. -/
theorem c9_pull_fails_atomically_witness :
    (pull_messages envMixedPayloads "projects/p/subscriptions/s" ⟨"p"⟩ 2
        true).fst
        = errorEnvelope ("Failed to pull messages from subscription "
            ++ "projects/p/subscriptions/s" ++ ": " ++ pyRepr nameErrorBase64)
    ∧ (pull_messages envMixedPayloads "projects/p/subscriptions/s" ⟨"p"⟩ 2
        true).fst.get? "messages" = Option.none
    ∧ (pull_messages envMixedPayloads "projects/p/subscriptions/s" ⟨"p"⟩ 2
        true).snd = [] :=
  c9_pull_fails_atomically envMixedPayloads "projects/p/subscriptions/s"
    ⟨"p"⟩ 2 true [rmOk, rmBad] nameErrorBase64 rfl rfl rfl

/-- C10 (code bug): with the ordering key absent or empty, the would-be
request value is indeed built with `ordering_key = ""` (the `or ""`
coercion) and the options are built without ordering — but no request is
ever forwarded to the publish call (the request log is empty in both
cases), because the factory call raises `TypeError` first. -/
theorem c10_empty_ordering_key_not_forwarded :
    (publishRequest "projects/p/topics/t" "hi" [] Option.none).ordering_key
        = ""
    ∧ publishPublisherOptions Option.none = ⟨false⟩
    ∧ publishPublisherOptions (some "") = ⟨false⟩
    ∧ (publish_message okEnv "projects/p/topics/t" "hi" ⟨"p"⟩ Option.none
        Option.none).snd = []
    ∧ (publish_message okEnv "projects/p/topics/t" "hi" ⟨"p"⟩ Option.none
        (some "")).snd = [] :=
  ⟨rfl, rfl, rfl, rfl, rfl⟩
